import Mathlib

/-!
Verification of the Zeon-Logs charging-session reconstruction pipeline.

The repository consists of a React/TypeScript frontend (under `src/`) and a
Python FastAPI backend (`backend/main.py`, documented in the repository's
markdown design notes, which quote its decisive code: the outcome policy of
`build_sessions_enhanced`, the `energy_kwh` / `avg_power_kw` formulas and the
pandas aggregation lines).  The frontend functions (`formatErrorDisplay`,
`processFile`, the dashboard aggregation) are translated here directly from
the TypeScript source; the backend session builder and metrics aggregator are
modelled from the repository's documented snippets and, where those are
silent, from the specification.

Numeric values are embedded as rationals (`ℚ`): timestamps are minutes since
an epoch, meter readings are integer watt-hours, powers are kilowatts.
Strings that the TypeScript code manipulates character-by-character are
embedded as `List Char`.
-/

namespace ZeonLogs

/-! ## Data model -/

/-- Protocol message kinds recognised by the event normalizer. -/
inductive Command
  | StartTransaction
  | StopTransaction
  | MeterValues
  | StatusNotification
  | Other
  deriving DecidableEq, Repr

/-- Modelled from the spec: one decoded log row (`RawEvent`, §3).  The payload
dictionary is represented by typed optional fields, one per payload key the
session builder reads (`meterStart`, `meterStop`, instantaneous power,
`status`, `errorCode`); an absent key is `none`. -/
structure RawEvent where
  command : Command
  timestamp : ℚ
  connectorId : ℕ
  meterStart : Option ℤ
  meterStop : Option ℤ
  powerW : Option ℚ
  status : Option (List Char)
  errorCode : Option (List Char)
  deriving DecidableEq, Repr

/-- Modelled from the spec: the mutable per-connector session being built
(`Open` state of the §4.2 state machine). -/
structure OpenSession where
  startTime : ℚ
  meterStart : Option ℤ
  hadCharging : Bool
  errors : List (List Char)
  maxPowerKw : ℚ
  deriving DecidableEq, Repr

/-- A finalized charging session (`ChargingSession`, §3). -/
structure ChargingSession where
  startTime : ℚ
  stopTime : Option ℚ
  meterStart : Option ℤ
  meterStop : Option ℤ
  hadCharging : Bool
  errors : List (List Char)
  maxPowerKw : ℚ
  deriving DecidableEq, Repr

/-- Session duration in minutes: stop minus start, when a stop was recorded
(`duration_min = (stop_time - start_time)/60` in the documented backend). -/
def durationMinutes (s : ChargingSession) : Option ℚ :=
  s.stopTime.map (fun t => t - s.startTime)

/-- Energy delivered: `energy_kwh = (meter_stop - meter_start) / 1000` when
both readings are present, undefined otherwise (documented backend snippet). -/
def energyKwh (s : ChargingSession) : Option ℚ :=
  match s.meterStart, s.meterStop with
  | some a, some b => some (((b : ℚ) - (a : ℚ)) / 1000)
  | _, _ => none

/-- Average power: `avg_power_kw = energy_kwh / duration_hrs if duration_hrs
> 0 else 0` (documented backend snippet).  When the duration is positive but
the energy is undefined the result is undefined (NaN in the source); a
non-positive or undefined duration yields 0. -/
def avgPowerKw (s : ChargingSession) : Option ℚ :=
  match durationMinutes s with
  | some d => if 0 < d then (energyKwh s).map (fun e => e / (d / 60)) else some 0
  | none => some 0

/-- Whether the duration is strictly greater than one minute; an undefined
duration is not greater than one. -/
def durGT1 (s : ChargingSession) : Bool :=
  match durationMinutes s with
  | some d => decide (1 < d)
  | none => false

/-- Whether the duration is strictly less than one minute; an undefined
duration (no stop event) is treated as less than one (spec §4.2 numeric edge
cases). -/
def durLT1 (s : ChargingSession) : Bool :=
  match durationMinutes s with
  | some d => decide (d < 1)
  | none => true

/-- Session outcomes. -/
inductive Outcome
  | Successful
  | Failed
  | Incomplete
  | Interrupted
  deriving DecidableEq, Repr

/-- Outcome policy, translated from the documented backend snippet:
`if errors: Failed; elif had_charging and duration_min > 1: Successful;
elif duration_min < 1: Incomplete; else: Interrupted`. -/
def outcome (s : ChargingSession) : Outcome :=
  if s.errors ≠ [] then .Failed
  else if s.hadCharging && durGT1 s then .Successful
  else if durLT1 s then .Incomplete
  else .Interrupted

/-- Modelled from the spec: a precharging failure is a session with duration
below one minute (or undefined), no errors, and that never reached charging
(§4.2 rule 3). -/
def isPrecharging (s : ChargingSession) : Bool :=
  durLT1 s && s.errors.isEmpty && !s.hadCharging

/-- Modelled from the spec: a fault/warning observed while no session is open
(`IdleTimeError`, §3), deduplicated by (timestamp, errorCode, connectorId). -/
structure IdleTimeError where
  timestamp : ℚ
  errorCode : List Char
  connectorId : ℕ
  deriving DecidableEq, Repr

/-! ## Session builder (state machine of §4.2) -/

/-- The `NoError` status-notification code, as a character list. -/
def noErrorCode : List Char := ['N', 'o', 'E', 'r', 'r', 'o', 'r']

/-- The charging-indicating status value. -/
def chargingStatus : List Char := ['C', 'h', 'a', 'r', 'g', 'i', 'n', 'g']

/-- Open a new session from a start event: records `startTime` and
`meterStart`, clears errors (§4.2 first transition). -/
def openFromStart (e : RawEvent) : OpenSession :=
  { startTime := e.timestamp
    meterStart := e.meterStart
    hadCharging := false
    errors := []
    maxPowerKw := 0 }

/-- Add a canonical error code to the open session's error set (no
duplicates). -/
def addError (o : OpenSession) (c : List Char) : OpenSession :=
  if c ∈ o.errors then o else { o with errors := o.errors ++ [c] }

/-- Modelled from the spec: effect of a non-start, non-stop event on the open
session (§4.2 `MeterValues` and `StatusNotification` self-transitions).
Meter values raise `maxPowerKw` (W→kW); a status notification with a
non-`NoError` code records the error, and a `Charging` status marks
`hadCharging`. -/
def applyOpenEvent (o : OpenSession) (e : RawEvent) : OpenSession :=
  match e.command with
  | .MeterValues =>
    match e.powerW with
    | some p => { o with maxPowerKw := max o.maxPowerKw (p / 1000) }
    | none => o
  | .StatusNotification =>
    let o1 :=
      match e.errorCode with
      | some c => if c ≠ noErrorCode then addError o c else o
      | none => o
    if e.status = some chargingStatus then { o1 with hadCharging := true } else o1
  | _ => o

/-- Finalize an open session that never received a stop event (forced close on
a second start, or end of stream). -/
def finalizeNoStop (o : OpenSession) : ChargingSession :=
  { startTime := o.startTime
    stopTime := none
    meterStart := o.meterStart
    meterStop := none
    hadCharging := o.hadCharging
    errors := o.errors
    maxPowerKw := o.maxPowerKw }

/-- Finalize an open session on its stop event: records `stopTime` and
`meterStop`. -/
def finalizeWithStop (o : OpenSession) (e : RawEvent) : ChargingSession :=
  { startTime := o.startTime
    stopTime := some e.timestamp
    meterStart := o.meterStart
    meterStop := e.meterStop
    hadCharging := o.hadCharging
    errors := o.errors
    maxPowerKw := o.maxPowerKw }

/-- State of the per-connector session builder. -/
structure BuilderState where
  openSess : Option OpenSession
  sessions : List ChargingSession
  idleErrors : List IdleTimeError
  deriving DecidableEq, Repr

/-- The builder's initial state. -/
def initState : BuilderState :=
  { openSess := none, sessions := [], idleErrors := [] }

/-- Modelled from the spec: one transition of the §4.2 state machine.  A start
while open force-closes the previous session; a stop while open finalizes and
emits; other events update the open session, or — while idle — route
fault/warning status notifications to idle-time error extraction
(deduplicated). -/
def step (st : BuilderState) (e : RawEvent) : BuilderState :=
  match e.command with
  | .StartTransaction =>
    match st.openSess with
    | some o =>
      { st with
          sessions := st.sessions ++ [finalizeNoStop o]
          openSess := some (openFromStart e) }
    | none => { st with openSess := some (openFromStart e) }
  | .StopTransaction =>
    match st.openSess with
    | some o =>
      { st with
          sessions := st.sessions ++ [finalizeWithStop o e]
          openSess := none }
    | none => st
  | _ =>
    match st.openSess with
    | some o => { st with openSess := some (applyOpenEvent o e) }
    | none =>
      match e.command, e.errorCode with
      | .StatusNotification, some c =>
        if c ≠ noErrorCode then
          let ie : IdleTimeError :=
            { timestamp := e.timestamp, errorCode := c, connectorId := e.connectorId }
          if ie ∈ st.idleErrors then st
          else { st with idleErrors := st.idleErrors ++ [ie] }
        else st
      | _, _ => st

/-- Run the builder over a connector's chronological event sequence. -/
def runBuilder (es : List RawEvent) : BuilderState :=
  es.foldl step initState

/-- Close out the stream: an open session at end of stream is finalized with
the data collected so far (§4.2 end-of-stream rule). -/
def closeStream (st : BuilderState) : BuilderState :=
  match st.openSess with
  | some o =>
    { st with sessions := st.sessions ++ [finalizeNoStop o], openSess := none }
  | none => st

/-- All sessions emitted for one connector's event sequence. -/
def buildSessions (es : List RawEvent) : List ChargingSession :=
  (closeStream (runBuilder es)).sessions

/-- Idle-time errors extracted for one connector's event sequence. -/
def buildIdleErrors (es : List RawEvent) : List IdleTimeError :=
  (closeStream (runBuilder es)).idleErrors

/-! ## Metrics aggregator (§4.4, documented pandas snippets) -/

/-- Increment one bucket of a reason histogram (association list keyed by the
full canonical code string). -/
def bump (h : List (List Char × ℕ)) (c : List Char) : List (List Char × ℕ) :=
  match h with
  | [] => [(c, 1)]
  | (k, n) :: t => if k = c then (k, n + 1) :: t else (k, n) :: bump t c

/-- Add every distinct error code of one session to the histogram (a single
session can add to multiple buckets). -/
def addSessionErrors (h : List (List Char × ℕ)) (s : ChargingSession) :
    List (List Char × ℕ) :=
  s.errors.foldl bump h

/-- Failed-session reason histogram: each failed session bumps the bucket of
each distinct error code it observed. -/
def failedReasonHist (ss : List ChargingSession) : List (List Char × ℕ) :=
  (ss.filter (fun s => outcome s = .Failed)).foldl addSessionErrors []

/-- Look up a bucket count in a reason histogram (0 when absent). -/
def histCount (h : List (List Char × ℕ)) (c : List Char) : ℕ :=
  match h with
  | [] => 0
  | (k, n) :: t => if k = c then n else histCount t c

/-- Aggregate summary for one connector (`ConnectorSummary`, §3). -/
structure ConnectorSummary where
  totalSessions : ℕ
  successfulSessions : ℕ
  failedSessions : ℕ
  incompleteSessions : ℕ
  interruptedSessions : ℕ
  prechargingFailures : ℕ
  idleTimeErrorCount : ℕ
  totalEnergyKwh : ℚ
  avgEnergyPerSession : ℚ
  totalDurationHours : ℚ
  avgDurationMinutes : ℚ
  avgPowerKw : ℚ
  peakPowerKw : ℚ
  failedSessionReasons : List (List Char × ℕ)
  deriving DecidableEq, Repr

/-- Total energy: sum of `energyKwh` over sessions where defined, a missing
value contributing 0 (documented `sessions_df.energy_kwh.sum()`). -/
def totalEnergyOf (ss : List ChargingSession) : ℚ :=
  (ss.map (fun s => (energyKwh s).getD 0)).sum

/-- Defined durations of a session list, in minutes. -/
def definedDurations (ss : List ChargingSession) : List ℚ :=
  ss.filterMap durationMinutes

/-- Defined per-session average powers.  Mirrors the documented
`sessions_df.avg_power_kw.mean()`: pandas skips only NaN (undefined) entries,
so zero-power sessions stay in the column. -/
def definedAvgPowers (ss : List ChargingSession) : List ℚ :=
  ss.filterMap avgPowerKw

/-- Modelled from the spec: mean of a rational list, 0 on the empty list
(§4.4: all means over an empty set yield 0). -/
def meanOrZero (l : List ℚ) : ℚ :=
  if l = [] then 0 else l.sum / l.length

/-- Modelled from the spec where the documented snippets are silent (empty-set
guards): the metrics aggregator, a pure function of the finalized session
list and the deduplicated idle-error list (§4.4). -/
def summarize (ss : List ChargingSession) (idle : List IdleTimeError) :
    ConnectorSummary :=
  { totalSessions := ss.length
    successfulSessions := (ss.filter (fun s => outcome s = .Successful)).length
    failedSessions := (ss.filter (fun s => outcome s = .Failed)).length
    incompleteSessions := (ss.filter (fun s => outcome s = .Incomplete)).length
    interruptedSessions := (ss.filter (fun s => outcome s = .Interrupted)).length
    prechargingFailures := (ss.filter (fun s => isPrecharging s)).length
    idleTimeErrorCount := idle.length
    totalEnergyKwh := totalEnergyOf ss
    avgEnergyPerSession :=
      if ss.length = 0 then 0 else totalEnergyOf ss / ss.length
    totalDurationHours := (definedDurations ss).sum / 60
    avgDurationMinutes := meanOrZero (definedDurations ss)
    avgPowerKw := meanOrZero (definedAvgPowers ss)
    peakPowerKw := (ss.map ChargingSession.maxPowerKw).foldr max 0
    failedSessionReasons := failedReasonHist ss }

/-! ## processLog (§6 external interface) -/

/-- Result record of `processLog`. -/
structure ProcessResult where
  connector1 : ConnectorSummary
  connector1Sessions : List ChargingSession
  connector2 : ConnectorSummary
  connector2Sessions : List ChargingSession
  deriving DecidableEq, Repr

/-- Stable insertion of an event into a list sorted by timestamp. -/
def insertByTime (e : RawEvent) : List RawEvent → List RawEvent
  | [] => [e]
  | x :: xs =>
    if e.timestamp < x.timestamp then e :: x :: xs else x :: insertByTime e xs

/-- Modelled from the spec: the event partitioner's chronological sort
(§2, stable on equal timestamps). -/
def sortByTime (es : List RawEvent) : List RawEvent :=
  es.reverse.foldl (fun acc e => insertByTime e acc) []

/-- Modelled from the spec: the event partitioner groups events by connector
id (§2). -/
def eventsFor (c : ℕ) (rows : List RawEvent) : List RawEvent :=
  sortByTime (rows.filter (fun e => e.connectorId = c))

/-- Summary and session list for one connector of one upload. -/
def processConnector (c : ℕ) (rows : List RawEvent) :
    ConnectorSummary × List ChargingSession :=
  let es := eventsFor c rows
  (summarize (buildSessions es) (buildIdleErrors es), buildSessions es)

/-- Modelled from the spec: the single operation the core exposes (§6)
— sessions and summaries for connectors 1 and 2. -/
def processLog (rows : List RawEvent) : ProcessResult :=
  { connector1 := (processConnector 1 rows).1
    connector1Sessions := (processConnector 1 rows).2
    connector2 := (processConnector 2 rows).1
    connector2Sessions := (processConnector 2 rows).2 }

/-- The all-zero connector summary. -/
def zeroSummary : ConnectorSummary :=
  { totalSessions := 0
    successfulSessions := 0
    failedSessions := 0
    incompleteSessions := 0
    interruptedSessions := 0
    prechargingFailures := 0
    idleTimeErrorCount := 0
    totalEnergyKwh := 0
    avgEnergyPerSession := 0
    totalDurationHours := 0
    avgDurationMinutes := 0
    avgPowerKw := 0
    peakPowerKw := 0
    failedSessionReasons := [] }

/-! ## Frontend: error display formatting (`formatErrorDisplay`, part_006)

JavaScript strings are embedded as `List Char`; `split(':', 2)` keeps the
first two segments of the full split, `replace(/([A-Z])/g, ' $1')` inserts a
space before every ASCII capital, `trim()` strips whitespace at both ends. -/

/-- Split a character list on every colon (the full `split(':')`). -/
def splitOnColon : List Char → List (List Char)
  | [] => [[]]
  | c :: cs =>
    if c = ':' then [] :: splitOnColon cs
    else
      match splitOnColon cs with
      | [] => [[c]]
      | p :: ps => (c :: p) :: ps

/-- Insert a space before every ASCII uppercase letter
(`replace(/([A-Z])/g, ' $1')`). -/
def spaceBeforeCaps : List Char → List Char
  | [] => []
  | c :: cs =>
    if c.isUpper then ' ' :: c :: spaceBeforeCaps cs
    else c :: spaceBeforeCaps cs

/-- Strip whitespace from both ends (`trim()`). -/
def trimChars (l : List Char) : List Char :=
  ((l.dropWhile Char.isWhitespace).reverse.dropWhile Char.isWhitespace).reverse

/-- Result shape of `formatErrorDisplay`. -/
structure ErrorDisplay where
  mainError : List Char
  subError : Option (List Char)
  displayText : List Char
  deriving DecidableEq, Repr

/-- Translated from `formatErrorDisplay` (part_006 lines 50–64):
`error.split(':', 2)` destructured into `mainError` and `subError`, and the
display text `` `${mainError} (${subError.replace(/([A-Z])/g, ' $1').trim()})` ``. -/
def formatErrorDisplay (error : List Char) : ErrorDisplay :=
  if ':' ∈ error then
    let parts := splitOnColon error
    let mainError := parts.headD []
    let subError := (parts.drop 1).headD []
    { mainError := mainError
      subError := some subError
      displayText :=
        mainError ++ [' ', '('] ++ trimChars (spaceBeforeCaps subError) ++ [')'] }
  else
    { mainError := error, subError := none, displayText := error }

/-- Stated from the claim's words, for comparison with `formatErrorDisplay`:
split at the FIRST colon, the sub-error being everything after it. -/
def formatErrorDisplayFirstSplit (error : List Char) : ErrorDisplay :=
  if ':' ∈ error then
    let mainError := error.takeWhile (fun c => c ≠ ':')
    let subError := (error.dropWhile (fun c => c ≠ ':')).drop 1
    { mainError := mainError
      subError := some subError
      displayText :=
        mainError ++ [' ', '('] ++ trimChars (spaceBeforeCaps subError) ++ [')'] }
  else
    { mainError := error, subError := none, displayText := error }

/-! ## Frontend: upload flow (`processFile`, UploadPage.tsx) -/

/-- Display status of an uploaded file entry. -/
inductive UploadStatus
  | uploading
  | done
  | error
  deriving DecidableEq, Repr

/-- The pieces of an uploaded-file entry that `processFile` mutates. -/
structure UploadEntry where
  status : UploadStatus
  errorMessage : Option String
  deriving DecidableEq, Repr

/-- Outcome of the `fetch` to `/process-file`: the response was OK, the
response had a non-OK status (the code then throws), or the request itself
threw. -/
inductive BackendOutcome
  | respOk
  | respNotOk
  | fetchThrew
  deriving DecidableEq, Repr

/-- Translated from `processFile` (UploadPage.tsx lines 26–69): an invalid
extension marks the entry in error with "Unsupported file format"; otherwise,
with a logged-in user, an OK response marks it done, and any failure (non-OK
status or thrown request) is caught and marks it in error with exactly
"Processing failed". -/
def processFile (validExt : Bool) (hasUser : Bool) (res : BackendOutcome) :
    UploadEntry :=
  let entry : UploadEntry :=
    if validExt then { status := .uploading, errorMessage := none }
    else { status := .error, errorMessage := some "Unsupported file format" }
  if validExt && hasUser then
    match res with
    | .respOk => { entry with status := .done }
    | _ => { status := .error, errorMessage := some "Processing failed" }
  else entry

/-! ## Frontend: dashboard cumulative statistics (part_006 lines 226–266) -/

/-- One stored upload document as the dashboard consumes it: the two
per-connector summaries. -/
structure FileDoc where
  connector1_summary : ConnectorSummary
  connector2_summary : ConnectorSummary
  deriving DecidableEq, Repr

/-- `totalSessions`: `data.reduce((sum, d) => sum + c1 + c2, 0)` over
"Total Sessions". -/
def dashTotalSessions (data : List FileDoc) : ℕ :=
  data.foldl
    (fun sum d =>
      sum + d.connector1_summary.totalSessions + d.connector2_summary.totalSessions) 0

/-- `totalEnergy`: the same reduce over "Total Energy (kWh)". -/
def dashTotalEnergy (data : List FileDoc) : ℚ :=
  data.foldl
    (fun sum d =>
      sum + d.connector1_summary.totalEnergyKwh + d.connector2_summary.totalEnergyKwh) 0

/-- `totalDurationSum`: the reduce over "Average Duration (minutes)". -/
def dashDurationSum (data : List FileDoc) : ℚ :=
  data.foldl
    (fun sum d =>
      sum + d.connector1_summary.avgDurationMinutes
          + d.connector2_summary.avgDurationMinutes) 0

/-- `avgDuration = data.length > 0 ? totalDurationSum / (data.length * 2) : 0`. -/
def dashAvgDuration (data : List FileDoc) : ℚ :=
  if 0 < data.length then dashDurationSum data / (data.length * 2) else 0

/-- `totalPowerSum`: the reduce over "Average Power (kW)". -/
def dashPowerSum (data : List FileDoc) : ℚ :=
  data.foldl
    (fun sum d =>
      sum + d.connector1_summary.avgPowerKw + d.connector2_summary.avgPowerKw) 0

/-- `avgPower = data.length > 0 ? totalPowerSum / (data.length * 2) : 0`. -/
def dashAvgPower (data : List FileDoc) : ℚ :=
  if 0 < data.length then dashPowerSum data / (data.length * 2) else 0

/-- `allPeakPowers = data.flatMap(d => [c1 peak, c2 peak])`. -/
def allPeakPowers (data : List FileDoc) : List ℚ :=
  (data.map (fun d =>
    [d.connector1_summary.peakPowerKw, d.connector2_summary.peakPowerKw])).flatten

/-- `peakPower = allPeakPowers.length > 0 ? Math.max(...allPeakPowers) : 0`. -/
def dashPeakPower (data : List FileDoc) : ℚ :=
  match allPeakPowers data with
  | [] => 0
  | x :: xs => xs.foldl max x

/-! ## Definitions stated from the spec's words, for refinement comparisons -/

/-- Stated from the claim's words, for comparison with the aggregator's
`avgPowerKw`: the mean of `avgPowerKw` over sessions where it is defined AND
strictly greater than 0. -/
def avgPowerWhereDefinedAndPos (ss : List ChargingSession) : ℚ :=
  meanOrZero ((ss.filterMap avgPowerKw).filter (fun p => decide (0 < p)))

/-- Stated from the claim's words, for comparison with `dashAvgPower`: the
session-count-weighted mean of the stored per-connector average powers. -/
def sessionWeightedAvgPower (data : List FileDoc) : ℚ :=
  let num := (data.map (fun d =>
    d.connector1_summary.avgPowerKw * (d.connector1_summary.totalSessions : ℚ)
      + d.connector2_summary.avgPowerKw * (d.connector2_summary.totalSessions : ℚ))).sum
  let den := (data.map (fun d =>
    ((d.connector1_summary.totalSessions + d.connector2_summary.totalSessions : ℕ) : ℚ))).sum
  if den = 0 then 0 else num / den

/-! ## Helper lemmas about the session builder -/

/-- An event that neither starts nor stops a transaction. -/
def midEvent (e : RawEvent) : Prop :=
  e.command ≠ .StartTransaction ∧ e.command ≠ .StopTransaction

theorem step_mid_open (st : BuilderState) (o : OpenSession) (e : RawEvent)
    (he : midEvent e) (ho : st.openSess = some o) :
    step st e = { st with openSess := some (applyOpenEvent o e) } := by
  obtain ⟨h1, h2⟩ := he
  cases hcmd : e.command <;> simp_all [step]

theorem foldl_step_open (es : List RawEvent) (st : BuilderState) (o : OpenSession)
    (hes : ∀ e ∈ es, midEvent e) (ho : st.openSess = some o) :
    es.foldl step st = { st with openSess := some (es.foldl applyOpenEvent o) } := by
  induction es generalizing st o with
  | nil =>
    cases st
    simp_all
  | cons e es ih =>
    rw [List.foldl_cons, step_mid_open st o e (hes e (by simp)) ho, List.foldl_cons]
    exact ih _ _ (fun x hx => hes x (by simp [hx])) rfl

theorem step_start_some (st : BuilderState) (o : OpenSession) (e : RawEvent)
    (he : e.command = .StartTransaction) (ho : st.openSess = some o) :
    step st e =
      { st with
          sessions := st.sessions ++ [finalizeNoStop o]
          openSess := some (openFromStart e) } := by
  simp [step, he, ho]

theorem step_start_none (st : BuilderState) (e : RawEvent)
    (he : e.command = .StartTransaction) (ho : st.openSess = none) :
    step st e = { st with openSess := some (openFromStart e) } := by
  simp [step, he, ho]

/-- Sessions produced by a start event followed by open-session updates only:
the single open session is finalized at end of stream with no stop event. -/
theorem buildSessions_start_mid (a : RawEvent) (mid : List RawEvent)
    (ha : a.command = .StartTransaction) (hmid : ∀ e ∈ mid, midEvent e) :
    buildSessions (a :: mid) =
      [finalizeNoStop (mid.foldl applyOpenEvent (openFromStart a))] := by
  unfold buildSessions runBuilder
  rw [List.foldl_cons, step_start_none initState a ha rfl,
    foldl_step_open mid _ (openFromStart a) hmid rfl]
  simp [closeStream, initState]

/-! ## Helper lemmas about the reason histogram -/

theorem histCount_bump (h : List (List Char × ℕ)) (k c : List Char) :
    histCount (bump h k) c = histCount h c + if k = c then 1 else 0 := by
  induction h with
  | nil => simp [bump, histCount]
  | cons p t ih =>
    obtain ⟨k0, n⟩ := p
    by_cases hk : k0 = k
    · subst hk
      simp only [bump, if_pos rfl, histCount]
      by_cases hc : k0 = c <;> simp [hc]
    · simp only [bump, if_neg hk, histCount]
      by_cases hc : k0 = c
      · subst hc
        simp [histCount, if_neg (Ne.symm hk)]
      · simp [hc, ih]

theorem histCount_foldl_bump (l : List (List Char)) (h : List (List Char × ℕ))
    (c : List Char) :
    histCount (l.foldl bump h) c = histCount h c + l.count c := by
  induction l generalizing h with
  | nil => simp
  | cons k t ih =>
    rw [List.foldl_cons, ih, histCount_bump, List.count_cons]
    simp only [beq_iff_eq]
    omega

theorem histCount_addSessionErrors (h : List (List Char × ℕ))
    (s : ChargingSession) (c : List Char) :
    histCount (addSessionErrors h s) c = histCount h c + s.errors.count c := by
  unfold addSessionErrors
  exact histCount_foldl_bump s.errors h c

theorem histCount_foldl_sessions (ss : List ChargingSession)
    (h : List (List Char × ℕ)) (c : List Char) :
    histCount (ss.foldl addSessionErrors h) c =
      histCount h c + (ss.map (fun s => s.errors.count c)).sum := by
  induction ss generalizing h with
  | nil => simp
  | cons s t ih =>
    rw [List.foldl_cons, ih, histCount_addSessionErrors]
    simp [Nat.add_assoc]

theorem count_eq_ite_of_nodup (l : List (List Char)) (c : List Char)
    (h : l.Nodup) : l.count c = if c ∈ l then 1 else 0 := by
  induction l with
  | nil => simp
  | cons a t ih =>
    rcases List.nodup_cons.1 h with ⟨hna, hnt⟩
    rw [List.count_cons]
    by_cases hac : a = c
    · subst hac
      simp [ih hnt, hna]
    · simp [List.mem_cons, hac, ih hnt, Ne.symm hac]

theorem sum_map_ite_eq_countP (l : List ChargingSession) (c : List Char) :
    (l.map (fun s => if c ∈ s.errors then 1 else 0)).sum =
      l.countP (fun s => decide (c ∈ s.errors)) := by
  induction l with
  | nil => simp
  | cons s t ih =>
    by_cases hc : c ∈ s.errors <;> simp [List.countP_cons, hc, ih, Nat.add_comm]

/-! ## Helper lemmas: the builder keeps error lists duplicate-free -/

/-- Invariant: the open session and every emitted session carry
duplicate-free error lists. -/
def errorsNodup (st : BuilderState) : Prop :=
  (∀ o, st.openSess = some o → o.errors.Nodup) ∧
    ∀ s ∈ st.sessions, s.errors.Nodup

theorem addError_nodup (o : OpenSession) (c : List Char)
    (h : o.errors.Nodup) : (addError o c).errors.Nodup := by
  unfold addError
  by_cases hc : c ∈ o.errors
  · simpa [hc]
  · simp [hc, List.nodup_append, h]

theorem applyOpenEvent_nodup (o : OpenSession) (e : RawEvent)
    (h : o.errors.Nodup) : (applyOpenEvent o e).errors.Nodup := by
  unfold applyOpenEvent
  cases hcmd : e.command <;> try exact h
  · cases e.powerW <;> simp [h]
  · cases hec : e.errorCode
    · dsimp only
      split <;> simp [h]
    · dsimp only
      split <;> split <;> simp [h, addError_nodup _ _ h]

theorem forall_mem_append_one {α : Type} {P : α → Prop} {l : List α} {x : α}
    (hl : ∀ s ∈ l, P s) (hx : P x) : ∀ s ∈ l ++ [x], P s := by
  intro s hs
  rcases List.mem_append.1 hs with hmem | hmem
  · exact hl s hmem
  · rw [List.mem_singleton.1 hmem]
    exact hx

theorem step_errorsNodup (st : BuilderState) (e : RawEvent)
    (h : errorsNodup st) : errorsNodup (step st e) := by
  obtain ⟨ho, hs⟩ := h
  unfold step
  cases hcmd : e.command with
  | StartTransaction =>
    cases hop : st.openSess with
    | none =>
      exact ⟨fun o2 h2 => by simp at h2; simp [← h2, openFromStart], hs⟩
    | some o =>
      exact ⟨fun o2 h2 => by simp at h2; simp [← h2, openFromStart],
        forall_mem_append_one hs (by simpa [finalizeNoStop] using ho o hop)⟩
  | StopTransaction =>
    cases hop : st.openSess with
    | none => exact ⟨ho, hs⟩
    | some o =>
      exact ⟨fun o2 h2 => by simp at h2,
        forall_mem_append_one hs (by simpa [finalizeWithStop] using ho o hop)⟩
  | MeterValues =>
    cases hop : st.openSess with
    | none => exact ⟨ho, hs⟩
    | some o =>
      exact ⟨fun o2 h2 => by
        simp at h2
        exact h2 ▸ applyOpenEvent_nodup o e (ho o hop), hs⟩
  | StatusNotification =>
    cases hop : st.openSess with
    | none =>
      cases hec : e.errorCode with
      | none => exact ⟨ho, hs⟩
      | some c =>
        dsimp only
        split
        · split <;> exact ⟨by simp [hop], hs⟩
        · exact ⟨ho, hs⟩
    | some o =>
      exact ⟨fun o2 h2 => by
        simp at h2
        exact h2 ▸ applyOpenEvent_nodup o e (ho o hop), hs⟩
  | Other =>
    cases hop : st.openSess with
    | none => exact ⟨ho, hs⟩
    | some o =>
      exact ⟨fun o2 h2 => by
        simp at h2
        exact h2 ▸ applyOpenEvent_nodup o e (ho o hop), hs⟩

theorem foldl_step_errorsNodup (es : List RawEvent) (st : BuilderState)
    (h : errorsNodup st) : errorsNodup (es.foldl step st) := by
  induction es generalizing st with
  | nil => exact h
  | cons e t ih => exact ih _ (step_errorsNodup st e h)

theorem buildSessions_errorsNodup (es : List RawEvent) :
    ∀ s ∈ buildSessions es, s.errors.Nodup := by
  have hinv : errorsNodup (runBuilder es) :=
    foldl_step_errorsNodup es initState ⟨by simp [initState], by simp [initState]⟩
  obtain ⟨ho, hs⟩ := hinv
  intro s hmem
  unfold buildSessions closeStream at hmem
  cases hop : (runBuilder es).openSess with
  | none =>
    rw [hop] at hmem
    exact hs s hmem
  | some o =>
    rw [hop] at hmem
    simp only [List.mem_append, List.mem_singleton] at hmem
    rcases hmem with hmem | rfl
    · exact hs s hmem
    · exact ho o hop

/-! ## Helper lemmas about the dashboard reduces -/

theorem dashTotalSessions_go (l : List FileDoc) (n : ℕ) :
    l.foldl (fun sum d =>
      sum + d.connector1_summary.totalSessions + d.connector2_summary.totalSessions) n =
    n + (l.map (fun d =>
      d.connector1_summary.totalSessions + d.connector2_summary.totalSessions)).sum := by
  induction l generalizing n with
  | nil => simp
  | cons d l ih =>
    rw [List.foldl_cons, ih, List.map_cons, List.sum_cons]
    omega

theorem foldl_add_two_go (f g : FileDoc → ℚ) (l : List FileDoc) (q : ℚ) :
    l.foldl (fun sum d => sum + f d + g d) q =
      q + (l.map (fun d => f d + g d)).sum := by
  induction l generalizing q with
  | nil => simp
  | cons d l ih =>
    rw [List.foldl_cons, ih, List.map_cons, List.sum_cons]
    ring

theorem le_foldl_max (xs : List ℚ) (x : ℚ) : x ≤ xs.foldl max x := by
  induction xs generalizing x with
  | nil => exact le_refl x
  | cons y ys ih =>
    exact le_trans (le_max_left x y) (ih (max x y))

theorem mem_le_foldl_max (xs : List ℚ) (x : ℚ) :
    ∀ p ∈ xs, p ≤ xs.foldl max x := by
  induction xs generalizing x with
  | nil => intro p hp; simp at hp
  | cons y ys ih =>
    intro p hp
    rcases List.mem_cons.1 hp with rfl | hp
    · exact le_trans (le_max_right x p) (le_foldl_max ys (max x p))
    · exact ih (max x y) p hp

theorem foldl_max_mem (xs : List ℚ) (x : ℚ) : xs.foldl max x ∈ x :: xs := by
  induction xs generalizing x with
  | nil => simp
  | cons y ys ih =>
    have hstep : (y :: ys).foldl max x = ys.foldl max (max x y) := rfl
    rw [hstep]
    rcases List.mem_cons.1 (ih (max x y)) with hm | hm
    · rcases max_choice x y with hxy | hxy
      · rw [hm, hxy]
        simp
      · rw [hm, hxy]
        simp
    · exact List.mem_cons.2 (Or.inr (List.mem_cons.2 (Or.inr hm)))

/-! ## Concrete inputs used by witnesses and counterexamples -/

/-- The spec's §8 example: Start at 10:00 with meter 1,000,000 Wh. -/
def scenarioStart : RawEvent :=
  { command := .StartTransaction, timestamp := 600, connectorId := 1,
    meterStart := some 1000000, meterStop := none, powerW := none,
    status := none, errorCode := none }

/-- The spec's §8 example: a Charging status notification at 10:05. -/
def scenarioCharging : RawEvent :=
  { command := .StatusNotification, timestamp := 605, connectorId := 1,
    meterStart := none, meterStop := none, powerW := none,
    status := some chargingStatus, errorCode := some noErrorCode }

/-- The spec's §8 example: Stop at 10:30 with meter 1,025,000 Wh. -/
def scenarioStop : RawEvent :=
  { command := .StopTransaction, timestamp := 630, connectorId := 1,
    meterStart := none, meterStop := some 1025000, powerW := none,
    status := none, errorCode := none }

/-- The spec's §8 example event sequence. -/
def scenarioEvents : List RawEvent :=
  [scenarioStart, scenarioCharging, scenarioStop]

/-- A session with defined positive average power (25 kWh in 30 minutes). -/
def sessionFiftyKw : ChargingSession :=
  { startTime := 0, stopTime := some 30, meterStart := some 0,
    meterStop := some 25000, hadCharging := true, errors := [],
    maxPowerKw := 0 }

/-- A session that never received a stop event: its average power is 0. -/
def sessionZeroKw : ChargingSession :=
  { startTime := 0, stopTime := none, meterStart := none, meterStop := none,
    hadCharging := false, errors := [], maxPowerKw := 0 }

/-- A start event (connector 1, minute 0) with no meter reading. -/
def bareStart : RawEvent :=
  { command := .StartTransaction, timestamp := 0, connectorId := 1,
    meterStart := none, meterStop := none, powerW := none,
    status := none, errorCode := none }

/-- The `GroundFailure` canonical error code. -/
def groundFailure : List Char :=
  ['G', 'r', 'o', 'u', 'n', 'd', 'F', 'a', 'i', 'l', 'u', 'r', 'e']

/-- A faulted status notification at minute 1 on connector 1. -/
def faultStatus : RawEvent :=
  { command := .StatusNotification, timestamp := 1, connectorId := 1,
    meterStart := none, meterStop := none, powerW := none,
    status := some ['F', 'a', 'u', 'l', 't', 'e', 'd'],
    errorCode := some groundFailure }

/-- The session the §8 example scenario reconstructs. -/
def scenarioSession : ChargingSession :=
  { startTime := 600, stopTime := some 630, meterStart := some 1000000,
    meterStop := some 1025000, hadCharging := true, errors := [],
    maxPowerKw := 0 }

/-- A finalized session carrying one error code. -/
def failedSessionEx : ChargingSession :=
  { startTime := 0, stopTime := none, meterStart := none, meterStop := none,
    hadCharging := false, errors := [groundFailure], maxPowerKw := 0 }

/-! ## Claims -/

/-- Claim C1: a finalized session's outcome follows the priority cascade —
non-empty error set means Failed, else charging reached with duration over a
minute means Successful, else duration under a minute (or undefined) means
Incomplete, else Interrupted — and the failed-reason histogram gives each
distinct error code of each failed session one count, so one session can add
to multiple buckets (the builder keeps error sets duplicate-free). -/
theorem claim1_outcome_policy :
    (∀ s : ChargingSession, outcome s = .Failed ↔ s.errors ≠ []) ∧
    (∀ s : ChargingSession,
      outcome s = .Successful ↔
        s.errors = [] ∧ s.hadCharging = true ∧ durGT1 s = true) ∧
    (∀ s : ChargingSession,
      outcome s = .Incomplete ↔
        s.errors = [] ∧ ¬(s.hadCharging = true ∧ durGT1 s = true) ∧
          durLT1 s = true) ∧
    (∀ s : ChargingSession,
      outcome s = .Interrupted ↔
        s.errors = [] ∧ ¬(s.hadCharging = true ∧ durGT1 s = true) ∧
          durLT1 s = false) ∧
    (∀ (ss : List ChargingSession) (c : List Char),
      (∀ s ∈ ss, s.errors.Nodup) →
      histCount (failedReasonHist ss) c =
        (ss.filter (fun s => outcome s = .Failed)).countP
          (fun s => decide (c ∈ s.errors))) ∧
    (∀ es : List RawEvent, ∀ s ∈ buildSessions es, s.errors.Nodup) := by
  refine ⟨fun s => ?_, fun s => ?_, fun s => ?_, fun s => ?_, ?_,
    fun es => buildSessions_errorsNodup es⟩
  · unfold outcome
    split_ifs with h1 h2 h3 <;> simp_all
  · unfold outcome
    split_ifs with h1 h2 h3 <;> simp_all
  · unfold outcome
    split_ifs with h1 h2 h3 <;> simp_all
  · unfold outcome
    split_ifs with h1 h2 h3 <;> simp_all
  · intro ss c hnd
    unfold failedReasonHist
    rw [histCount_foldl_sessions]
    simp only [histCount, Nat.zero_add]
    have hmem : ∀ s ∈ ss.filter (fun s => outcome s = .Failed), s.errors.Nodup :=
      fun s hsf => hnd s (List.mem_of_mem_filter hsf)
    rw [List.map_congr_left (fun s hsf => count_eq_ite_of_nodup _ c (hmem s hsf))]
    exact sum_map_ite_eq_countP _ c

/-- Witness for C1 at a concrete failed session: the outcome is Failed and
its error code gets exactly one histogram count. -/
theorem claim1_outcome_policy_witness :
    outcome failedSessionEx = .Failed ∧
    histCount (failedReasonHist [failedSessionEx]) groundFailure =
      ([failedSessionEx].filter (fun s => outcome s = .Failed)).countP
        (fun s => decide (groundFailure ∈ s.errors)) :=
  ⟨(claim1_outcome_policy.1 failedSessionEx).mpr (by decide),
   claim1_outcome_policy.2.2.2.2.1 [failedSessionEx] groundFailure (by decide)⟩

/-- Claim C2: for a session with both meter readings and both times,
energyKwh = (meterStop − meterStart)/1000, durationMinutes = stop − start,
and avgPowerKw = energy over duration-in-hours when the duration is positive
(0 otherwise); the §8 example sequence yields exactly one Successful session
with energyKwh 25, durationMinutes 30 and avgPowerKw 50. -/
theorem claim2_session_metrics :
    (∀ (s : ChargingSession) (ms me : ℤ) (t1 : ℚ),
      s.meterStart = some ms → s.meterStop = some me → s.stopTime = some t1 →
      energyKwh s = some (((me : ℚ) - (ms : ℚ)) / 1000) ∧
      durationMinutes s = some (t1 - s.startTime) ∧
      (0 < t1 - s.startTime →
        avgPowerKw s =
          some ((((me : ℚ) - (ms : ℚ)) / 1000) / ((t1 - s.startTime) / 60))) ∧
      (¬0 < t1 - s.startTime → avgPowerKw s = some 0)) ∧
    buildSessions scenarioEvents = [scenarioSession] ∧
    outcome scenarioSession = .Successful ∧
    energyKwh scenarioSession = some 25 ∧
    durationMinutes scenarioSession = some 30 ∧
    avgPowerKw scenarioSession = some 50 := by
  refine ⟨?_, ?_, ?_, ?_, ?_, ?_⟩
  · intro s ms me t1 h1 h2 h3
    have hd : durationMinutes s = some (t1 - s.startTime) := by
      simp [durationMinutes, h3]
    refine ⟨by simp [energyKwh, h1, h2], hd, ?_, ?_⟩
    · intro hpos
      simp only [avgPowerKw, hd, if_pos hpos]
      simp [energyKwh, h1, h2]
    · intro hneg
      simp only [avgPowerKw, hd, if_neg hneg]
  · simp [buildSessions, runBuilder, closeStream, initState, step,
      scenarioEvents, scenarioStart, scenarioCharging, scenarioStop,
      scenarioSession, applyOpenEvent, openFromStart, finalizeWithStop,
      chargingStatus, noErrorCode, addError]
  · simp [outcome, scenarioSession, durGT1, durLT1, durationMinutes]
    norm_num
  · simp [energyKwh, scenarioSession]
    norm_num
  · simp [durationMinutes, scenarioSession]
    norm_num
  · simp [avgPowerKw, durationMinutes, energyKwh, scenarioSession]
    norm_num

/-- Witness for C2 at the §8 example session. -/
theorem claim2_session_metrics_witness :
    energyKwh scenarioSession =
      some ((((1025000 : ℤ) : ℚ) - ((1000000 : ℤ) : ℚ)) / 1000) :=
  (claim2_session_metrics.1 scenarioSession 1000000 1025000 630 rfl rfl rfl).1

/-- Counterexample to C3: with one 50 kW session and one zero-power session,
the aggregator's Average Power is 25 (the zero stays in the mean), while the
claim's mean over sessions with power defined and positive is 50. -/
theorem claim3_avg_power_counterexample :
    (summarize [sessionFiftyKw, sessionZeroKw] []).avgPowerKw = 25 ∧
    avgPowerWhereDefinedAndPos [sessionFiftyKw, sessionZeroKw] = 50 ∧
    (summarize [sessionFiftyKw, sessionZeroKw] []).avgPowerKw ≠
      avgPowerWhereDefinedAndPos [sessionFiftyKw, sessionZeroKw] := by
  have h1 : (summarize [sessionFiftyKw, sessionZeroKw] []).avgPowerKw = 25 := by
    simp [summarize, meanOrZero, definedAvgPowers, avgPowerKw, durationMinutes,
      energyKwh, sessionFiftyKw, sessionZeroKw]
    norm_num
  have h2 : avgPowerWhereDefinedAndPos [sessionFiftyKw, sessionZeroKw] = 50 := by
    simp [avgPowerWhereDefinedAndPos, meanOrZero, avgPowerKw, durationMinutes,
      energyKwh, sessionFiftyKw, sessionZeroKw]
    norm_num
  exact ⟨h1, h2, by rw [h1, h2]; norm_num⟩

/-- Claim C3 as amended: the connector summary's Average Power is the mean of
avgPowerKw over the sessions where it is DEFINED — zero-power sessions stay
in both numerator and denominator; only sessions whose power is undefined
(positive duration, missing meter readings) are excluded. -/
theorem claim3_avg_power_mean :
    ∀ (ss : List ChargingSession) (idle : List IdleTimeError),
      definedAvgPowers ss ≠ [] →
      (summarize ss idle).avgPowerKw =
        (definedAvgPowers ss).sum / (definedAvgPowers ss).length := by
  intro ss idle h
  simp [summarize, meanOrZero, h]

/-- Witness for the amended C3 at a one-session list. -/
theorem claim3_avg_power_mean_witness :
    (summarize [sessionFiftyKw] []).avgPowerKw =
      (definedAvgPowers [sessionFiftyKw]).sum /
        (definedAvgPowers [sessionFiftyKw]).length :=
  claim3_avg_power_mean [sessionFiftyKw] [] (by
    simp [definedAvgPowers, avgPowerKw, durationMinutes, energyKwh,
      sessionFiftyKw])

/-- Claim C4: two starts on one connector with no intervening stop emit
exactly two sessions — the first finalized with no stop event from the data
gathered before the second start only, the second opened from the second
start's data and updated by the remaining events. -/
theorem claim4_double_start :
    ∀ (a b : RawEvent) (mid rest : List RawEvent),
      a.command = .StartTransaction → b.command = .StartTransaction →
      (∀ e ∈ mid, midEvent e) → (∀ e ∈ rest, midEvent e) →
      buildSessions (a :: (mid ++ b :: rest)) =
        [finalizeNoStop (mid.foldl applyOpenEvent (openFromStart a)),
         finalizeNoStop (rest.foldl applyOpenEvent (openFromStart b))] ∧
      (buildSessions (a :: (mid ++ b :: rest))).length = 2 := by
  intro a b mid rest ha hb hmid hrest
  have key : buildSessions (a :: (mid ++ b :: rest)) =
      [finalizeNoStop (mid.foldl applyOpenEvent (openFromStart a)),
       finalizeNoStop (rest.foldl applyOpenEvent (openFromStart b))] := by
    unfold buildSessions runBuilder
    rw [List.foldl_cons, step_start_none initState a ha rfl, List.foldl_append,
      foldl_step_open mid _ (openFromStart a) hmid rfl, List.foldl_cons,
      step_start_some _ (mid.foldl applyOpenEvent (openFromStart a)) b hb rfl,
      foldl_step_open rest _ (openFromStart b) hrest rfl]
    simp [closeStream, initState]
  exact ⟨key, by rw [key]; rfl⟩

/-- Witness for C4: two bare starts in a row emit exactly the two no-stop
sessions. -/
theorem claim4_double_start_witness :
    buildSessions [bareStart, bareStart] =
      [finalizeNoStop (List.foldl applyOpenEvent (openFromStart bareStart) []),
       finalizeNoStop (List.foldl applyOpenEvent (openFromStart bareStart) [])] ∧
    (buildSessions [bareStart, bareStart]).length = 2 :=
  claim4_double_start bareStart bareStart [] [] rfl rfl
    (by intro e he; simp at he) (by intro e he; simp at he)

/-- Counterexample to C5: a start followed by a faulted status notification
and no stop finalizes as Failed, not Incomplete — the outcome policy's error
rule outranks the incomplete rule even without a stop event. -/
theorem claim5_no_stop_counterexample :
    (buildSessions [bareStart, faultStatus]).map outcome = [.Failed] ∧
    Outcome.Failed ≠ Outcome.Incomplete := by
  constructor
  · simp [buildSessions, runBuilder, closeStream, initState, step, bareStart,
      faultStatus, applyOpenEvent, openFromStart, finalizeNoStop, addError,
      chargingStatus, noErrorCode, groundFailure, outcome, durGT1, durLT1,
      durationMinutes]
  · simp

/-- Claim C5 as amended: a start with no subsequent stop finalizes with an
undefined duration that the policy treats as less than one minute, so the
outcome is Incomplete PROVIDED no error codes were observed (an observed
error makes it Failed instead); with no errors and no charging status it is
additionally counted as a Precharging Failure. -/
theorem claim5_no_stop_incomplete :
    ∀ (a : RawEvent) (mid : List RawEvent) (idle : List IdleTimeError),
      a.command = .StartTransaction → (∀ e ∈ mid, midEvent e) →
      buildSessions (a :: mid) =
        [finalizeNoStop (mid.foldl applyOpenEvent (openFromStart a))] ∧
      durationMinutes
        (finalizeNoStop (mid.foldl applyOpenEvent (openFromStart a))) = none ∧
      durLT1 (finalizeNoStop (mid.foldl applyOpenEvent (openFromStart a))) = true ∧
      ((mid.foldl applyOpenEvent (openFromStart a)).errors = [] →
        outcome (finalizeNoStop (mid.foldl applyOpenEvent (openFromStart a))) =
          .Incomplete) ∧
      ((mid.foldl applyOpenEvent (openFromStart a)).errors = [] →
        (mid.foldl applyOpenEvent (openFromStart a)).hadCharging = false →
        isPrecharging
          (finalizeNoStop (mid.foldl applyOpenEvent (openFromStart a))) = true ∧
        (summarize (buildSessions (a :: mid)) idle).prechargingFailures = 1) := by
  intro a mid idle ha hmid
  have hbuild := buildSessions_start_mid a mid ha hmid
  refine ⟨hbuild, by simp [durationMinutes, finalizeNoStop], ?_, ?_, ?_⟩
  · simp [durLT1, durationMinutes, finalizeNoStop]
  · intro he
    simp [outcome, finalizeNoStop, he, durGT1, durLT1, durationMinutes]
  · intro he hch
    have hpre : isPrecharging
        (finalizeNoStop (mid.foldl applyOpenEvent (openFromStart a))) = true := by
      simp [isPrecharging, durLT1, durationMinutes, finalizeNoStop, he, hch]
    refine ⟨hpre, ?_⟩
    rw [hbuild]
    simp [summarize, hpre]

/-- Witness for the amended C5: a single bare start yields one Incomplete
session counted as a precharging failure. -/
theorem claim5_no_stop_incomplete_witness :
    buildSessions [bareStart] =
      [finalizeNoStop (List.foldl applyOpenEvent (openFromStart bareStart) [])] ∧
    durationMinutes
      (finalizeNoStop (List.foldl applyOpenEvent (openFromStart bareStart) [])) =
      none ∧
    durLT1 (finalizeNoStop (List.foldl applyOpenEvent (openFromStart bareStart) [])) =
      true ∧
    ((List.foldl applyOpenEvent (openFromStart bareStart) []).errors = [] →
      outcome
        (finalizeNoStop (List.foldl applyOpenEvent (openFromStart bareStart) [])) =
        .Incomplete) ∧
    ((List.foldl applyOpenEvent (openFromStart bareStart) []).errors = [] →
      (List.foldl applyOpenEvent (openFromStart bareStart) []).hadCharging = false →
      isPrecharging
        (finalizeNoStop (List.foldl applyOpenEvent (openFromStart bareStart) [])) =
        true ∧
      (summarize (buildSessions [bareStart]) []).prechargingFailures = 1) :=
  claim5_no_stop_incomplete bareStart [] [] rfl (by intro e he; simp at he)

/-! ## Helper lemmas about colon splitting -/

theorem splitOnColon_ne_nil (l : List Char) : splitOnColon l ≠ [] := by
  cases l with
  | nil => simp [splitOnColon]
  | cons c cs =>
    by_cases hc : c = ':'
    · simp [splitOnColon, hc]
    · simp only [splitOnColon, if_neg hc]
      cases splitOnColon cs <;> simp

theorem splitOnColon_append (main rest : List Char) (h : ':' ∉ main) :
    splitOnColon (main ++ ':' :: rest) = main :: splitOnColon rest := by
  induction main with
  | nil => simp [splitOnColon]
  | cons c cs ih =>
    have hc : c ≠ ':' := fun hcc => h (by simp [hcc])
    have hcs : ':' ∉ cs := fun hmem => h (by simp [hmem])
    simp only [List.cons_append, splitOnColon, if_neg hc, List.append_eq,
      ih hcs]

theorem splitOnColon_headD (l : List Char) :
    (splitOnColon l).headD [] = l.takeWhile (fun c => c ≠ ':') := by
  induction l with
  | nil => rfl
  | cons c cs ih =>
    by_cases hc : c = ':'
    · subst hc
      simp [splitOnColon, List.takeWhile_cons]
    · obtain ⟨p, ps, hp⟩ := List.exists_cons_of_ne_nil (splitOnColon_ne_nil cs)
      rw [hp] at ih
      simp only [List.headD_cons] at ih
      simp only [splitOnColon, if_neg hc, hp, List.headD_cons,
        List.takeWhile_cons]
      simp [hc, ih]

/-- The compound code with two colons used to separate the code's limit-2
split from a true first-colon split. -/
def doubleColonCode : List Char := ['A', ':', 'B', ':', 'C']

/-- Counterexample to C6: on a code with two colons the formatter is NOT a
split at the first colon — `split(':', 2)` keeps only the first two segments,
so the sub-error is "B" and the text after the second colon is dropped, while
a first-colon split would keep "B:C". -/
theorem claim6_display_counterexample :
    (formatErrorDisplay doubleColonCode).subError = some ['B'] ∧
    (formatErrorDisplayFirstSplit doubleColonCode).subError =
      some ['B', ':', 'C'] ∧
    formatErrorDisplay doubleColonCode ≠
      formatErrorDisplayFirstSplit doubleColonCode := by
  refine ⟨by decide, by decide, by decide⟩

/-- Claim C6 as amended: for a code containing a colon the formatter keeps
the first two colon-separated segments — mainError is the text before the
first colon, subError the text between the first and second colon (text after
a second colon is dropped) — and renders `MainError (Sub Error)` with the
sub-error spaced at its capitals; a colon-free code displays unchanged; the
histogram buckets stay keyed by the full compound string, distinct from the
bare main error's bucket. -/
theorem claim6_format_error_display :
    (∀ l : List Char, ':' ∉ l →
      formatErrorDisplay l = ⟨l, none, l⟩) ∧
    (∀ main rest : List Char, ':' ∉ main →
      formatErrorDisplay (main ++ ':' :: rest) =
        ⟨main, some (rest.takeWhile (fun c => c ≠ ':')),
         main ++ [' ', '('] ++
           trimChars (spaceBeforeCaps (rest.takeWhile (fun c => c ≠ ':'))) ++
           [')']⟩) ∧
    (∀ (s : ChargingSession) (main sub : List Char),
      s.errors = [main ++ ':' :: sub] →
      outcome s = .Failed ∧
      histCount (failedReasonHist [s]) (main ++ ':' :: sub) = 1 ∧
      histCount (failedReasonHist [s]) main = 0) := by
  refine ⟨?_, ?_, ?_⟩
  · intro l hl
    simp [formatErrorDisplay, hl]
  · intro main rest h
    have hmem : ':' ∈ main ++ ':' :: rest := by simp
    unfold formatErrorDisplay
    rw [if_pos hmem, splitOnColon_append main rest h]
    simp only [List.headD_cons, List.drop_succ_cons, List.drop_zero]
    rw [splitOnColon_headD rest]
  · intro s main sub hs
    have hne : main ++ ':' :: sub ≠ main := by
      intro hcontra
      have hlen := congrArg List.length hcontra
      simp at hlen
    have hout : outcome s = .Failed := by simp [outcome, hs]
    refine ⟨hout, ?_, ?_⟩
    · simp [failedReasonHist, hout, addSessionErrors, hs, bump, histCount]
    · simp [failedReasonHist, hout, addSessionErrors, hs, bump, histCount, hne]

/-- Witness for the amended C6 at "Conn:HighTemp": main error "Conn", sub
error "HighTemp", displayed as "Conn ( High Temp)" after capital spacing and
trim. -/
theorem claim6_format_error_display_witness :
    formatErrorDisplay
        (['C', 'o', 'n', 'n'] ++ ':' ::
          ['H', 'i', 'g', 'h', 'T', 'e', 'm', 'p']) =
      ⟨['C', 'o', 'n', 'n'],
       some (['H', 'i', 'g', 'h', 'T', 'e', 'm', 'p'].takeWhile
         (fun c => c ≠ ':')),
       ['C', 'o', 'n', 'n'] ++ [' ', '('] ++
         trimChars (spaceBeforeCaps
           (['H', 'i', 'g', 'h', 'T', 'e', 'm', 'p'].takeWhile
             (fun c => c ≠ ':'))) ++ [')']⟩ :=
  claim6_format_error_display.2.1 ['C', 'o', 'n', 'n']
    ['H', 'i', 'g', 'h', 'T', 'e', 'm', 'p'] (by decide)

/-- Counterexample to C7: a connector can have zero sessions and still carry
a non-zero summary field — one idle-time fault gives connector 1 an empty
session list, zero Total Sessions, but an Idle Time Error Count of 1. -/
theorem claim7_zero_sessions_counterexample :
    (processLog [faultStatus]).connector1Sessions = [] ∧
    (processLog [faultStatus]).connector1.totalSessions = 0 ∧
    (processLog [faultStatus]).connector1.idleTimeErrorCount = 1 ∧
    (processLog [faultStatus]).connector1.idleTimeErrorCount ≠ 0 := by
  refine ⟨by decide, by decide, by decide, by decide⟩

/-- Claim C7 as amended: empty input yields the all-zero summaries and empty
session lists for both connectors (no error); with zero sessions every
session count and numeric aggregate is 0 — in particular Average Energy per
Session and Average Power — while the idle-time error count equals the
number of idle-time errors (and may be non-zero); Average Power over
sessions with no positive power is 0. -/
theorem claim7_empty_input_zeroes :
    processLog [] =
      { connector1 := zeroSummary, connector1Sessions := [],
        connector2 := zeroSummary, connector2Sessions := [] } ∧
    (∀ idle : List IdleTimeError,
      summarize [] idle = { zeroSummary with idleTimeErrorCount := idle.length }) ∧
    (∀ (ss : List ChargingSession) (idle : List IdleTimeError),
      (∀ p ∈ definedAvgPowers ss, p = 0) →
      (summarize ss idle).avgPowerKw = 0) := by
  have hs : ∀ idle : List IdleTimeError,
      summarize [] idle = { zeroSummary with idleTimeErrorCount := idle.length } := by
    intro idle
    simp [summarize, zeroSummary, meanOrZero, totalEnergyOf, definedDurations,
      definedAvgPowers, failedReasonHist]
  refine ⟨?_, hs, ?_⟩
  · have h := hs []
    simp only [List.length_nil] at h
    rw [show processLog [] =
        { connector1 := summarize [] [], connector1Sessions := [],
          connector2 := summarize [] [], connector2Sessions := [] } from rfl, h]
    rfl
  · intro ss idle hp
    by_cases hd : definedAvgPowers ss = []
    · simp [summarize, meanOrZero, hd]
    · have hsum : (definedAvgPowers ss).sum = 0 := List.sum_eq_zero hp
      simp [summarize, meanOrZero, hd, hsum]

/-- Witness for the amended C7: a lone no-stop session has average power 0,
so the summary's Average Power is 0. -/
theorem claim7_empty_input_zeroes_witness :
    (summarize [sessionZeroKw] []).avgPowerKw = 0 :=
  claim7_empty_input_zeroes.2.2 [sessionZeroKw] []
    (by simp [definedAvgPowers, avgPowerKw, durationMinutes, sessionZeroKw])

/-- Claim C8: `processLog` is a deterministic pure function of the row
sequence — two runs on identical inputs yield identical summaries and
session lists, with no dependence on wall-clock time or random state. -/
theorem claim8_determinism :
    ∀ rows1 rows2 : List RawEvent,
      rows1 = rows2 → processLog rows1 = processLog rows2 := by
  intro rows1 rows2 h
  rw [h]

/-- Witness for C8 at the §8 example row sequence. -/
theorem claim8_determinism_witness :
    processLog scenarioEvents = processLog scenarioEvents :=
  claim8_determinism scenarioEvents scenarioEvents rfl

/-- Claim C9: when the backend call fails — a non-OK response (the code
throws) or a thrown request — the uploaded file is marked in the error state
with exactly the message "Processing failed". -/
theorem claim9_processing_failed :
    ∀ res : BackendOutcome, res ≠ .respOk →
      processFile true true res =
        { status := .error, errorMessage := some "Processing failed" } := by
  intro res h
  cases res with
  | respOk => exact absurd rfl h
  | respNotOk => rfl
  | fetchThrew => rfl

/-- Witness for C9 at a non-OK backend response. -/
theorem claim9_processing_failed_witness :
    processFile true true .respNotOk =
      { status := .error, errorMessage := some "Processing failed" } :=
  claim9_processing_failed .respNotOk (by decide)

/-- A stored summary whose average power is 10 kW over one session. -/
def powerTenSummary : ConnectorSummary :=
  { zeroSummary with avgPowerKw := 10, totalSessions := 1 }

/-- A file document with 10 kW average power on connector 1. -/
def sampleDocA : FileDoc :=
  { connector1_summary := powerTenSummary, connector2_summary := zeroSummary }

/-- A file document with all-zero summaries. -/
def sampleDocB : FileDoc :=
  { connector1_summary := zeroSummary, connector2_summary := zeroSummary }

/-- Two stored files used to separate the dashboard's average-of-averages
from a session-weighted mean. -/
def sampleDocs : List FileDoc := [sampleDocA, sampleDocB]

/-- Claim C10: the dashboard's cumulative statistics are plain sums of both
connectors' session counts and energies over every file, the maximum of all
per-connector peak powers, and — for Average Duration and Average Power —
the sum of the per-connector summary averages divided by (files × 2), an
unweighted average of averages that differs from a session-count-weighted
mean. -/
theorem claim10_dashboard_aggregates :
    (∀ data : List FileDoc,
      dashTotalSessions data =
        (data.map (fun d =>
          d.connector1_summary.totalSessions +
            d.connector2_summary.totalSessions)).sum) ∧
    (∀ data : List FileDoc,
      dashTotalEnergy data =
        (data.map (fun d =>
          d.connector1_summary.totalEnergyKwh +
            d.connector2_summary.totalEnergyKwh)).sum) ∧
    (∀ data : List FileDoc, data ≠ [] →
      dashAvgDuration data =
        (data.map (fun d =>
          d.connector1_summary.avgDurationMinutes +
            d.connector2_summary.avgDurationMinutes)).sum /
          ((data.length : ℚ) * 2)) ∧
    (∀ data : List FileDoc, data ≠ [] →
      dashAvgPower data =
        (data.map (fun d =>
          d.connector1_summary.avgPowerKw +
            d.connector2_summary.avgPowerKw)).sum /
          ((data.length : ℚ) * 2)) ∧
    (∀ data : List FileDoc,
      (∀ p ∈ allPeakPowers data, p ≤ dashPeakPower data) ∧
      (data ≠ [] → dashPeakPower data ∈ allPeakPowers data)) ∧
    dashAvgPower sampleDocs ≠ sessionWeightedAvgPower sampleDocs := by
  refine ⟨?_, ?_, ?_, ?_, ?_, ?_⟩
  · intro data
    simpa using dashTotalSessions_go data 0
  · intro data
    simpa using foldl_add_two_go
      (fun d => d.connector1_summary.totalEnergyKwh)
      (fun d => d.connector2_summary.totalEnergyKwh) data 0
  · intro data hne
    unfold dashAvgDuration
    rw [if_pos (List.length_pos.2 hne),
      show dashDurationSum data =
        (data.map (fun d =>
          d.connector1_summary.avgDurationMinutes +
            d.connector2_summary.avgDurationMinutes)).sum from by
        simpa using foldl_add_two_go
          (fun d => d.connector1_summary.avgDurationMinutes)
          (fun d => d.connector2_summary.avgDurationMinutes) data 0]
  · intro data hne
    unfold dashAvgPower
    rw [if_pos (List.length_pos.2 hne),
      show dashPowerSum data =
        (data.map (fun d =>
          d.connector1_summary.avgPowerKw +
            d.connector2_summary.avgPowerKw)).sum from by
        simpa using foldl_add_two_go
          (fun d => d.connector1_summary.avgPowerKw)
          (fun d => d.connector2_summary.avgPowerKw) data 0]
  · intro data
    constructor
    · intro p hp
      unfold dashPeakPower
      cases hall : allPeakPowers data with
      | nil =>
        rw [hall] at hp
        simp at hp
      | cons x xs =>
        rw [hall] at hp
        rcases List.mem_cons.1 hp with rfl | hp2
        · exact le_foldl_max xs p
        · exact mem_le_foldl_max xs x p hp2
    · intro hne
      have hall : allPeakPowers data ≠ [] := by
        cases data with
        | nil => exact absurd rfl hne
        | cons d t => simp [allPeakPowers]
      unfold dashPeakPower
      cases hall2 : allPeakPowers data with
      | nil => exact absurd hall2 hall
      | cons x xs => exact foldl_max_mem xs x
  · have h1 : dashAvgPower sampleDocs = 5 / 2 := by
      norm_num [dashAvgPower, dashPowerSum, sampleDocs, sampleDocA, sampleDocB,
        powerTenSummary, zeroSummary]
    have h2 : sessionWeightedAvgPower sampleDocs = 10 := by
      norm_num [sessionWeightedAvgPower, sampleDocs, sampleDocA, sampleDocB,
        powerTenSummary, zeroSummary]
    rw [h1, h2]
    norm_num

/-- Witness for C10: the dashboard average power over the two sample files is
the per-connector power sum divided by files × 2. -/
theorem claim10_dashboard_aggregates_witness :
    dashAvgPower sampleDocs =
      (sampleDocs.map (fun d =>
        d.connector1_summary.avgPowerKw +
          d.connector2_summary.avgPowerKw)).sum /
        ((sampleDocs.length : ℚ) * 2) :=
  claim10_dashboard_aggregates.2.2.2.1 sampleDocs (by simp [sampleDocs])

end ZeonLogs
